import Mathlib

/-!
Verification of the two broadcast scripts of pnpbots/pnptv-app:
`src/emails/broadcast-prime-welcome.py` (Telegram pipeline) and
`src/emails/send-prime-welcome.py` (email pipeline).

The scripts are shallowly embedded: Python string operations are modelled
over `List Char`, the external transport (Telegram HTTP API, SMTP session)
is modelled as an oracle giving each recipient an outcome, and the
dispatch loop becomes a structural recursion producing the final counters
together with a trace of transport attempts and sleeps.
-/

/-- Python membership test for strings: a needle list is a prefix of the hay. -/
def listIsPrefixOf : List Char → List Char → Bool
  | [], _ => true
  | _ :: _, [] => false
  | a :: as, b :: bs => a == b && listIsPrefixOf as bs

/-- Substring containment on character lists, as the Python `in` operator. -/
def containsSub (needle : List Char) : List Char → Bool
  | [] => listIsPrefixOf needle []
  | c :: rest => listIsPrefixOf needle (c :: rest) || containsSub needle rest

/-- Python `needle in hay` on strings. -/
def pyIn (needle hay : String) : Bool := containsSub needle.data hay.data

/-- Python `str.lower()` (ASCII, which covers every description the scripts test). -/
def pyLower (s : String) : String := ⟨s.data.map Char.toLower⟩

/-- Python `str.strip()`: drop whitespace from both ends. -/
def pyStrip (s : List Char) : List Char :=
  ((s.dropWhile Char.isWhitespace).reverse.dropWhile Char.isWhitespace).reverse

/-- Python `str.split(sep)` for a one-character separator: `"" ↦ [""]`,
separators at the ends produce empty fields. -/
def pySplit (sep : Char) : List Char → List (List Char)
  | [] => [[]]
  | c :: rest =>
    if c == sep then [] :: pySplit sep rest
    else
      match pySplit sep rest with
      | [] => [[c]]
      | h :: t => (c :: h) :: t

/-- RecipientRecord: one row of the query output, as both scripts build it
(`telegram`/`email` contact, `language`, `username`). -/
structure Recipient where
  contact : String
  lang : String
  username : String
deriving DecidableEq

/-- Loader line parse of broadcast-prime-welcome.py lines 106-115: skip a
blank line, split on the pipe, require at least two fields and a nonempty
first (contact) field. -/
def parseLineTg (line : List Char) : Option Recipient :=
  if (pyStrip line).isEmpty then none
  else
    if 2 ≤ (pySplit '|' line).length then
      if (pyStrip ((pySplit '|' line).getD 0 [])).isEmpty then none
      else
        some ⟨⟨pyStrip ((pySplit '|' line).getD 0 [])⟩,
              ⟨pyStrip ((pySplit '|' line).getD 1 [])⟩,
              ⟨if 2 < (pySplit '|' line).length
               then pyStrip ((pySplit '|' line).getD 2 []) else []⟩⟩
    else none

/-- Loader line parse of send-prime-welcome.py lines 69-78: same shape, and
the contact must additionally contain an at sign. -/
def parseLineEmail (line : List Char) : Option Recipient :=
  if (pyStrip line).isEmpty then none
  else
    if 2 ≤ (pySplit '|' line).length then
      if (pyStrip ((pySplit '|' line).getD 0 [])).isEmpty then none
      else if (pyStrip ((pySplit '|' line).getD 0 [])).contains '@' then
        some ⟨⟨pyStrip ((pySplit '|' line).getD 0 [])⟩,
              ⟨pyStrip ((pySplit '|' line).getD 1 [])⟩,
              ⟨if 2 < (pySplit '|' line).length
               then pyStrip ((pySplit '|' line).getD 2 []) else []⟩⟩
      else none
    else none

/-- The loader input split into lines: `result.stdout.strip().split("\n")`. -/
def linesOf (stdout : String) : List (List Char) :=
  pySplit '\n' (pyStrip stdout.data)

/-- Telegram variant of the Recipient Loader. -/
def loadUsersTg (stdout : String) : List Recipient :=
  (linesOf stdout).filterMap parseLineTg

/-- Email variant of the Recipient Loader. -/
def loadUsersEmail (stdout : String) : List Recipient :=
  (linesOf stdout).filterMap parseLineEmail

/-- The two constant template bundles. `english` stands for
MSG_EN/KEYBOARD_EN (chat) resp. SUBJECT_EN/HTML_EN/PLAIN_EN (email);
`spanish` for the corresponding Spanish constants. -/
inductive Template
  | english
  | spanish
deriving DecidableEq

/-- The selection flag of both scripts: `is_es = lang == "es"`. -/
def is_es (lang : String) : Bool := lang == "es"

/-- Template Selector: `MSG_ES if is_es else MSG_EN` and friends. -/
def selectTemplate (lang : String) : Template :=
  if is_es lang then Template.spanish else Template.english

/-- The per-recipient payload both scripts build before the transport call:
the contact address and the selected template bundle. -/
structure Payload where
  contact : String
  template : Template
deriving DecidableEq

/-- Payload built for a recipient (broadcast lines 131-149, email 98-109). -/
def payloadOf (r : Recipient) : Payload :=
  ⟨r.contact, selectTemplate r.lang⟩

/-- Outcome of one transport call in the Telegram pipeline: success, an
HTTPError carrying the description extracted from the error body and the
parse of `parameters.retry_after` (`none` = body not JSON, `some none` =
JSON without the field, `some (some v)` = field present), or any other
exception. -/
inductive TransportResult
  | ok
  | httpError (desc : String) (retryAfterField : Option (Option Nat))
  | exn (msg : String)
deriving DecidableEq

/-- Transport behaviour for one recipient: the first call outcome and the
outcome of the retry call, should the rate-limit branch make one. -/
structure Behavior where
  first : TransportResult
  retry : TransportResult
deriving DecidableEq

/-- broadcast lines 168-172: `retry_after = 1` initially, overwritten by
`json.loads(body).get("parameters", \x7b\x7d).get("retry_after", 5)` when the
body parses, left at 1 when it does not. -/
def retryAfterOf : Option (Option Nat) → Nat
  | none => 1
  | some none => 5
  | some (some v) => v

/-- broadcast line 164: the description indicates an unreachable recipient. -/
def isUnreachable (desc : String) : Bool :=
  pyIn "blocked" (pyLower desc) || pyIn "deactivated" (pyLower desc)

/-- broadcast line 167: the description indicates a rate limit. -/
def isRateLimited (desc : String) : Bool :=
  pyIn "Too Many Requests" desc

/-- Observable events of a dispatch run: a transport call with its payload,
a rate-limit sleep, an inter-message pacing sleep (durations in seconds). -/
inductive Event
  | attempt (p : Payload)
  | rateSleep (d : ℚ)
  | paceSleep (d : ℚ)
deriving DecidableEq

def isAttemptEv : Event → Bool
  | Event.attempt _ => true
  | _ => false

def isPaceEv : Event → Bool
  | Event.paceSleep _ => true
  | _ => false

/-- Effect of processing one recipient: counter increments, failure-list
entries, and the events (calls and sleeps) emitted. -/
structure StepResult where
  sentInc : Nat
  blockedInc : Nat
  failedInc : Nat
  failEntries : List (String × String)
  events : List Event
deriving DecidableEq

/-- One iteration of the Telegram dispatch loop (broadcast lines 151-191):
success counts as sent; an HTTPError is classified blocked (no retry),
rate-limited (sleep `retry_after + 0.5`, retry once, a second failure is
recorded as failed), or failed; any other exception is failed. -/
def stepTg (r : Recipient) (b : Behavior) : StepResult :=
  match b.first with
  | TransportResult.ok =>
      ⟨1, 0, 0, [], [Event.attempt (payloadOf r)]⟩
  | TransportResult.httpError desc raf =>
      if isUnreachable desc then
        ⟨0, 1, 0, [], [Event.attempt (payloadOf r)]⟩
      else if isRateLimited desc then
        match b.retry with
        | TransportResult.ok =>
            ⟨1, 0, 0, [],
              [Event.attempt (payloadOf r),
               Event.rateSleep ((retryAfterOf raf : ℚ) + 1/2),
               Event.attempt (payloadOf r)]⟩
        | TransportResult.httpError d2 _ =>
            ⟨0, 0, 1, [(r.contact, d2)],
              [Event.attempt (payloadOf r),
               Event.rateSleep ((retryAfterOf raf : ℚ) + 1/2),
               Event.attempt (payloadOf r)]⟩
        | TransportResult.exn m =>
            ⟨0, 0, 1, [(r.contact, m)],
              [Event.attempt (payloadOf r),
               Event.rateSleep ((retryAfterOf raf : ℚ) + 1/2),
               Event.attempt (payloadOf r)]⟩
      else
        ⟨0, 0, 1, [(r.contact, desc)], [Event.attempt (payloadOf r)]⟩
  | TransportResult.exn m =>
      ⟨0, 0, 1, [(r.contact, m)], [Event.attempt (payloadOf r)]⟩

/-- Final counters of the Telegram pipeline (broadcast lines 123-126). -/
structure DispatchState where
  sent : Nat
  blocked : Nat
  failed : Nat
  failures : List (String × String)
deriving DecidableEq

/-- Inter-message pacing of the Telegram pipeline: 0.08 seconds. -/
def paceTg : ℚ := 8/100

/-- Inter-message pacing of the email pipeline: 0.5 seconds. -/
def paceEmail : ℚ := 1/2

/-- Final counters of the Telegram dispatch loop over a recipient list
paired with its transport behaviours. -/
def dispatchTg : List (Recipient × Behavior) → DispatchState
  | [] => ⟨0, 0, 0, []⟩
  | rb :: rest =>
      ⟨(stepTg rb.1 rb.2).sentInc + (dispatchTg rest).sent,
       (stepTg rb.1 rb.2).blockedInc + (dispatchTg rest).blocked,
       (stepTg rb.1 rb.2).failedInc + (dispatchTg rest).failed,
       (stepTg rb.1 rb.2).failEntries ++ (dispatchTg rest).failures⟩

/-- Event trace of the Telegram dispatch loop; the pacing sleep happens
after every recipient except the last (broadcast lines 194-195). -/
def traceTg : List (Recipient × Behavior) → List Event
  | [] => []
  | rb :: rest =>
      (stepTg rb.1 rb.2).events
        ++ (if rest.isEmpty then [] else [Event.paceSleep paceTg])
        ++ traceTg rest

/-- Outcome of one `server.sendmail` call in the email pipeline. -/
inductive EmailResult
  | ok
  | exn (msg : String)
deriving DecidableEq

/-- Effect of processing one recipient in the email pipeline. -/
structure EmailStep where
  sentInc : Nat
  failedInc : Nat
  failEntries : List (String × String)
  events : List Event
deriving DecidableEq

/-- One iteration of the email dispatch loop (send lines 111-119): success
counts as sent, any exception counts as failed with one failure entry. -/
def stepEmail (r : Recipient) (e : EmailResult) : EmailStep :=
  match e with
  | EmailResult.ok => ⟨1, 0, [], [Event.attempt (payloadOf r)]⟩
  | EmailResult.exn m => ⟨0, 1, [(r.contact, m)], [Event.attempt (payloadOf r)]⟩

/-- Final counters of the email pipeline (send lines 90-92). -/
structure EmailState where
  sent : Nat
  failed : Nat
  failures : List (String × String)
deriving DecidableEq

/-- Final counters of the email dispatch loop. -/
def dispatchEmail : List (Recipient × EmailResult) → EmailState
  | [] => ⟨0, 0, []⟩
  | re :: rest =>
      ⟨(stepEmail re.1 re.2).sentInc + (dispatchEmail rest).sent,
       (stepEmail re.1 re.2).failedInc + (dispatchEmail rest).failed,
       (stepEmail re.1 re.2).failEntries ++ (dispatchEmail rest).failures⟩

/-- Event trace of the email dispatch loop (pacing at send lines 122-123). -/
def traceEmail : List (Recipient × EmailResult) → List Event
  | [] => []
  | re :: rest =>
      (stepEmail re.1 re.2).events
        ++ (if rest.isEmpty then [] else [Event.paceSleep paceEmail])
        ++ traceEmail rest

/-- Whole Telegram run: load the recipients from the query output, then
dispatch with the transport behaviour given per position. -/
def runTg (stdout : String) (env : Nat → Behavior) : DispatchState :=
  dispatchTg ((loadUsersTg stdout).enum.map (fun p => (p.2, env p.1)))

/-- Whole email run. -/
def runEmail (stdout : String) (env : Nat → EmailResult) : EmailState :=
  dispatchEmail ((loadUsersEmail stdout).enum.map (fun p => (p.2, env p.1)))

/-- Modelled from the spec: a well-formed row of the Telegram variant, in
the words of section 4.1 — not blank, at least two fields, nonempty
contact. -/
def wellFormedRowTg (line : List Char) : Bool :=
  !(pyStrip line).isEmpty
    && decide (2 ≤ (pySplit '|' line).length)
    && !(pyStrip ((pySplit '|' line).getD 0 [])).isEmpty

/-- Modelled from the spec: a well-formed row of the email variant — as the
Telegram one, and the contact contains an at sign. -/
def wellFormedRowEmail (line : List Char) : Bool :=
  wellFormedRowTg line && (pyStrip ((pySplit '|' line).getD 0 [])).contains '@'

theorem stepTg_sum (r : Recipient) (b : Behavior) :
    (stepTg r b).sentInc + (stepTg r b).blockedInc + (stepTg r b).failedInc = 1 := by
  rcases b with ⟨f, rt⟩
  cases f <;> cases rt <;> simp [stepTg] <;> split_ifs <;> rfl

theorem stepTg_fail_len (r : Recipient) (b : Behavior) :
    (stepTg r b).failEntries.length = (stepTg r b).failedInc := by
  rcases b with ⟨f, rt⟩
  cases f <;> cases rt <;> simp [stepTg] <;> split_ifs <;> rfl

theorem stepTg_fail_contact (r : Recipient) (b : Behavior) :
    ∀ e ∈ (stepTg r b).failEntries, e.1 = r.contact := by
  rcases b with ⟨f, rt⟩
  cases f <;> cases rt <;> simp [stepTg] <;> split_ifs <;> simp

theorem stepTg_attempts (r : Recipient) (b : Behavior) :
    (stepTg r b).events.countP isAttemptEv = 1
      ∨ (stepTg r b).events.countP isAttemptEv = 2 := by
  rcases b with ⟨f, rt⟩
  cases f <;> cases rt <;> simp [stepTg, isAttemptEv, List.countP_cons] <;> split_ifs <;> simp [List.countP_cons, isAttemptEv]

theorem stepTg_no_pace (r : Recipient) (b : Behavior) :
    (stepTg r b).events.filter isPaceEv = [] := by
  rcases b with ⟨f, rt⟩
  cases f <;> cases rt <;> simp [stepTg, isPaceEv] <;> split_ifs <;> simp [isPaceEv]

theorem dispatchTg_sum (rs : List (Recipient × Behavior)) :
    (dispatchTg rs).sent + (dispatchTg rs).blocked + (dispatchTg rs).failed = rs.length := by
  induction rs with
  | nil => rfl
  | cons hd tl ih =>
      have h := stepTg_sum hd.1 hd.2
      simp [dispatchTg]
      omega

theorem dispatchTg_failures_len (rs : List (Recipient × Behavior)) :
    (dispatchTg rs).failures.length = (dispatchTg rs).failed := by
  induction rs with
  | nil => rfl
  | cons hd tl ih =>
      have h := stepTg_fail_len hd.1 hd.2
      simp [dispatchTg, h, ih]

theorem dispatchTg_append (xs ys : List (Recipient × Behavior)) :
    (dispatchTg (xs ++ ys)).sent = (dispatchTg xs).sent + (dispatchTg ys).sent
  ∧ (dispatchTg (xs ++ ys)).blocked = (dispatchTg xs).blocked + (dispatchTg ys).blocked
  ∧ (dispatchTg (xs ++ ys)).failed = (dispatchTg xs).failed + (dispatchTg ys).failed
  ∧ (dispatchTg (xs ++ ys)).failures = (dispatchTg xs).failures ++ (dispatchTg ys).failures := by
  induction xs with
  | nil => simp [dispatchTg]
  | cons hd tl ih =>
      simp [dispatchTg, ih.1, ih.2.1, ih.2.2.1, ih.2.2.2]
      omega

theorem traceTg_pace_filter (rs : List (Recipient × Behavior)) :
    (traceTg rs).filter isPaceEv
      = List.replicate (rs.length - 1) (Event.paceSleep paceTg) := by
  induction rs with
  | nil => rfl
  | cons hd tl ih =>
      cases tl with
      | nil => simp [traceTg, stepTg_no_pace]
      | cons hd2 tl2 =>
          simp [traceTg, List.filter_append, stepTg_no_pace, isPaceEv] at ih ⊢
          simp [ih, List.replicate_succ]

theorem traceTg_cons_countP (hd : Recipient × Behavior) (tl : List (Recipient × Behavior)) :
    (traceTg (hd :: tl)).countP isAttemptEv
      = (stepTg hd.1 hd.2).events.countP isAttemptEv + (traceTg tl).countP isAttemptEv := by
  cases tl <;> simp [traceTg, List.countP_append, isAttemptEv]

theorem traceTg_attempt_bounds (rs : List (Recipient × Behavior)) :
    rs.length ≤ (traceTg rs).countP isAttemptEv
      ∧ (traceTg rs).countP isAttemptEv ≤ 2 * rs.length := by
  induction rs with
  | nil => simp [traceTg]
  | cons hd tl ih =>
      have h := stepTg_attempts hd.1 hd.2
      rw [List.length_cons, traceTg_cons_countP]
      rcases h with h | h <;> rw [h] <;> omega

theorem stepEmail_no_pace (r : Recipient) (e : EmailResult) :
    (stepEmail r e).events.filter isPaceEv = [] := by
  cases e <;> simp [stepEmail, isPaceEv]

theorem stepEmail_attempts (r : Recipient) (e : EmailResult) :
    (stepEmail r e).events.countP isAttemptEv = 1 := by
  cases e <;> simp [stepEmail, isAttemptEv]

theorem stepEmail_fail_len (r : Recipient) (e : EmailResult) :
    (stepEmail r e).failEntries.length = (stepEmail r e).failedInc := by
  cases e <;> rfl

theorem stepEmail_sum (r : Recipient) (e : EmailResult) :
    (stepEmail r e).sentInc + (stepEmail r e).failedInc = 1 := by
  cases e <;> rfl

theorem dispatchEmail_sum (rs : List (Recipient × EmailResult)) :
    (dispatchEmail rs).sent + (dispatchEmail rs).failed = rs.length := by
  induction rs with
  | nil => rfl
  | cons hd tl ih =>
      have h := stepEmail_sum hd.1 hd.2
      simp [dispatchEmail]
      omega

theorem dispatchEmail_failures_len (rs : List (Recipient × EmailResult)) :
    (dispatchEmail rs).failures.length = (dispatchEmail rs).failed := by
  induction rs with
  | nil => rfl
  | cons hd tl ih =>
      have h := stepEmail_fail_len hd.1 hd.2
      simp [dispatchEmail, h, ih]

theorem dispatchEmail_append (xs ys : List (Recipient × EmailResult)) :
    (dispatchEmail (xs ++ ys)).sent = (dispatchEmail xs).sent + (dispatchEmail ys).sent
  ∧ (dispatchEmail (xs ++ ys)).failed = (dispatchEmail xs).failed + (dispatchEmail ys).failed := by
  induction xs with
  | nil => simp [dispatchEmail]
  | cons hd tl ih =>
      simp [dispatchEmail, ih.1, ih.2]
      omega

theorem traceEmail_pace_filter (rs : List (Recipient × EmailResult)) :
    (traceEmail rs).filter isPaceEv
      = List.replicate (rs.length - 1) (Event.paceSleep paceEmail) := by
  induction rs with
  | nil => rfl
  | cons hd tl ih =>
      cases tl with
      | nil => simp [traceEmail, stepEmail_no_pace]
      | cons hd2 tl2 =>
          simp [traceEmail, List.filter_append, stepEmail_no_pace, isPaceEv] at ih ⊢
          simp [ih, List.replicate_succ]

theorem traceEmail_cons_countP (hd : Recipient × EmailResult) (tl : List (Recipient × EmailResult)) :
    (traceEmail (hd :: tl)).countP isAttemptEv
      = (stepEmail hd.1 hd.2).events.countP isAttemptEv + (traceEmail tl).countP isAttemptEv := by
  cases tl <;> simp [traceEmail, List.countP_append, isAttemptEv]

theorem traceEmail_attempt_count (rs : List (Recipient × EmailResult)) :
    (traceEmail rs).countP isAttemptEv = rs.length := by
  induction rs with
  | nil => rfl
  | cons hd tl ih =>
      rw [traceEmail_cons_countP, stepEmail_attempts, ih, List.length_cons]
      omega

theorem parseLineTg_isSome (line : List Char) :
    (parseLineTg line).isSome = wellFormedRowTg line := by
  unfold parseLineTg wellFormedRowTg
  split_ifs <;> simp_all

theorem parseLineEmail_isSome (line : List Char) :
    (parseLineEmail line).isSome = wellFormedRowEmail line := by
  unfold parseLineEmail wellFormedRowEmail wellFormedRowTg
  split_ifs <;> simp_all

theorem filterMap_eq_filter_of_isSome {α β : Type} (f : α → Option β) (p : α → Bool)
    (hp : ∀ a, (f a).isSome = p a) (l : List α) :
    l.filterMap f = (l.filter p).filterMap f := by
  induction l with
  | nil => rfl
  | cons hd tl ih =>
      cases hfd : f hd with
      | none =>
          have hph : p hd = false := by rw [← hp]; simp [hfd]
          simp [List.filterMap_cons, List.filter_cons, hfd, hph, ih]
      | some b =>
          have hph : p hd = true := by rw [← hp]; simp [hfd]
          simp [List.filterMap_cons, List.filter_cons, hfd, hph, ih]

theorem length_filterMap_eq_countP {α β : Type} (f : α → Option β) (l : List α) :
    (l.filterMap f).length = l.countP (fun a => (f a).isSome) := by
  induction l with
  | nil => rfl
  | cons hd tl ih =>
      cases hfd : f hd with
      | none => simp [List.filterMap_cons, List.countP_cons, hfd, ih]
      | some b => simp [List.filterMap_cons, List.countP_cons, hfd, ih]

theorem countP_congr_fun {α : Type} (p q : α → Bool) (hp : ∀ a, p a = q a) (l : List α) :
    l.countP p = l.countP q := by
  induction l with
  | nil => rfl
  | cons hd tl ih => simp [List.countP_cons, hp hd, ih]

theorem loadUsersTg_length (s : String) :
    (loadUsersTg s).length = (linesOf s).countP wellFormedRowTg := by
  rw [loadUsersTg, length_filterMap_eq_countP]
  exact countP_congr_fun _ _ parseLineTg_isSome _

theorem loadUsersEmail_length (s : String) :
    (loadUsersEmail s).length = (linesOf s).countP wellFormedRowEmail := by
  rw [loadUsersEmail, length_filterMap_eq_countP]
  exact countP_congr_fun _ _ parseLineEmail_isSome _

/-- Claim C1: after a full dispatch run each recipient is counted in exactly
one outcome bucket, so sent + blocked + failed equals the number of
recipients in the Telegram pipeline, and sent + failed equals it in the
email pipeline (which has no blocked bucket, so blocked is zero there). -/
theorem claim1_outcome_partition (rsT : List (Recipient × Behavior))
    (rsE : List (Recipient × EmailResult)) :
    (dispatchTg rsT).sent + (dispatchTg rsT).blocked + (dispatchTg rsT).failed = rsT.length
      ∧ (dispatchEmail rsE).sent + (dispatchEmail rsE).failed = rsE.length :=
  ⟨dispatchTg_sum rsT, dispatchEmail_sum rsE⟩

/-- Claim C2: a rate-limited first call with a server-supplied retry_after v
makes the dispatcher sleep exactly v + 0.5 seconds (hence at least v), then
retry exactly once with the same payload; a failing retry is recorded as
failed exactly once, with one failure-list entry, and no further attempt. -/
theorem claim2_rate_limit_retry (r : Recipient) (b : Behavior) (desc : String) (v : Nat)
    (h1 : b.first = TransportResult.httpError desc (some (some v)))
    (h2 : isRateLimited desc = true)
    (h3 : isUnreachable desc = false) :
    (stepTg r b).events
        = [Event.attempt (payloadOf r), Event.rateSleep ((v : ℚ) + 1/2),
           Event.attempt (payloadOf r)]
      ∧ (v : ℚ) ≤ (v : ℚ) + 1/2
      ∧ (b.retry ≠ TransportResult.ok →
          (stepTg r b).failedInc = 1 ∧ (stepTg r b).failEntries.length = 1
            ∧ (stepTg r b).sentInc = 0 ∧ (stepTg r b).blockedInc = 0) := by
  rcases b with ⟨f, rt⟩
  simp only at h1
  subst h1
  cases rt <;> simp [stepTg, h2, h3, retryAfterOf]

theorem claim2_witness :
    (stepTg ⟨"1", "en", ""⟩
        ⟨TransportResult.httpError "Too Many Requests: retry after 3" (some (some 3)),
         TransportResult.exn "boom"⟩).events
        = [Event.attempt (payloadOf ⟨"1", "en", ""⟩), Event.rateSleep ((3 : ℚ) + 1/2),
           Event.attempt (payloadOf ⟨"1", "en", ""⟩)]
      ∧ ((3 : Nat) : ℚ) ≤ ((3 : Nat) : ℚ) + 1/2
      ∧ ((⟨TransportResult.httpError "Too Many Requests: retry after 3" (some (some 3)),
            TransportResult.exn "boom"⟩ : Behavior).retry ≠ TransportResult.ok →
          (stepTg ⟨"1", "en", ""⟩
              ⟨TransportResult.httpError "Too Many Requests: retry after 3" (some (some 3)),
               TransportResult.exn "boom"⟩).failedInc = 1
            ∧ (stepTg ⟨"1", "en", ""⟩
                ⟨TransportResult.httpError "Too Many Requests: retry after 3" (some (some 3)),
                 TransportResult.exn "boom"⟩).failEntries.length = 1
            ∧ (stepTg ⟨"1", "en", ""⟩
                ⟨TransportResult.httpError "Too Many Requests: retry after 3" (some (some 3)),
                 TransportResult.exn "boom"⟩).sentInc = 0
            ∧ (stepTg ⟨"1", "en", ""⟩
                ⟨TransportResult.httpError "Too Many Requests: retry after 3" (some (some 3)),
                 TransportResult.exn "boom"⟩).blockedInc = 0) :=
  claim2_rate_limit_retry _ _ _ 3 rfl (by decide) (by decide)

/-- Claim C3: template selection is a pure total function of the language
code: it is deterministic, the code es yields the Spanish template bundle,
and every other string, the empty string included, yields the English one. -/
theorem claim3_template_selection (x : String) :
    selectTemplate x = selectTemplate x
      ∧ selectTemplate "es" = Template.spanish
      ∧ (x ≠ "es" → selectTemplate x = Template.english) := by
  refine ⟨rfl, by decide, fun h => ?_⟩
  simp [selectTemplate, is_es, h]

theorem claim3_witness : selectTemplate "fr" = Template.english :=
  (claim3_template_selection "fr").2.2 (by decide)

/-- Claim C4: each loader returns exactly the well-formed rows in input
order — blank lines, lines with fewer than two fields, lines with an empty
contact, and (email variant) contacts without an at sign are excluded —
so the output never exceeds the input line count and has exactly one
record per well-formed row. -/
theorem claim4_loader_wellformed (line : List Char) (s : String) :
    ((parseLineTg line).isSome = wellFormedRowTg line)
      ∧ ((parseLineEmail line).isSome = wellFormedRowEmail line)
      ∧ loadUsersTg s = ((linesOf s).filter wellFormedRowTg).filterMap parseLineTg
      ∧ loadUsersEmail s = ((linesOf s).filter wellFormedRowEmail).filterMap parseLineEmail
      ∧ (loadUsersTg s).length = (linesOf s).countP wellFormedRowTg
      ∧ (loadUsersEmail s).length = (linesOf s).countP wellFormedRowEmail
      ∧ (loadUsersTg s).length ≤ (linesOf s).length
      ∧ (loadUsersEmail s).length ≤ (linesOf s).length := by
  refine ⟨parseLineTg_isSome line, parseLineEmail_isSome line,
    filterMap_eq_filter_of_isSome _ _ parseLineTg_isSome _,
    filterMap_eq_filter_of_isSome _ _ parseLineEmail_isSome _,
    loadUsersTg_length s, loadUsersEmail_length s, ?_, ?_⟩
  · rw [loadUsersTg_length]; exact List.countP_le_length _
  · rw [loadUsersEmail_length]; exact List.countP_le_length _

/-- Claim C5: a transport error whose description indicates an unreachable
recipient (blocked or deactivated) increments only the blocked counter,
makes exactly one transport call (no retry), leaves sent and failed
unchanged, and adds no failure entry. -/
theorem claim5_blocked_no_retry (r : Recipient) (b : Behavior) (desc : String)
    (raf : Option (Option Nat))
    (h1 : b.first = TransportResult.httpError desc raf)
    (h2 : isUnreachable desc = true) :
    stepTg r b = ⟨0, 1, 0, [], [Event.attempt (payloadOf r)]⟩ := by
  rcases b with ⟨f, rt⟩
  simp only at h1
  subst h1
  simp [stepTg, h2]

theorem claim5_witness :
    stepTg ⟨"7", "en", ""⟩
        ⟨TransportResult.httpError "Forbidden: user is deactivated" none, TransportResult.ok⟩
      = ⟨0, 1, 0, [], [Event.attempt (payloadOf ⟨"7", "en", ""⟩)]⟩ :=
  claim5_blocked_no_retry _ _ "Forbidden: user is deactivated" none rfl (by decide)

/-- Claim C6: per-recipient failures never abort the batch — the final
counters over any concatenation of recipients are the sums of the counters
over the parts, whatever the transport outcomes — and every recipient gets
exactly one transport call plus at most one retry (one or two calls in the
Telegram pipeline, exactly one in the email pipeline). -/
theorem claim6_no_abort :
    (∀ xs ys : List (Recipient × Behavior),
        (dispatchTg (xs ++ ys)).sent = (dispatchTg xs).sent + (dispatchTg ys).sent
      ∧ (dispatchTg (xs ++ ys)).blocked = (dispatchTg xs).blocked + (dispatchTg ys).blocked
      ∧ (dispatchTg (xs ++ ys)).failed = (dispatchTg xs).failed + (dispatchTg ys).failed
      ∧ (dispatchTg (xs ++ ys)).failures = (dispatchTg xs).failures ++ (dispatchTg ys).failures)
  ∧ (∀ (r : Recipient) (b : Behavior),
        (stepTg r b).events.countP isAttemptEv = 1
          ∨ (stepTg r b).events.countP isAttemptEv = 2)
  ∧ (∀ rs : List (Recipient × Behavior),
        rs.length ≤ (traceTg rs).countP isAttemptEv
          ∧ (traceTg rs).countP isAttemptEv ≤ 2 * rs.length)
  ∧ (∀ xs ys : List (Recipient × EmailResult),
        (dispatchEmail (xs ++ ys)).sent = (dispatchEmail xs).sent + (dispatchEmail ys).sent
      ∧ (dispatchEmail (xs ++ ys)).failed = (dispatchEmail xs).failed + (dispatchEmail ys).failed)
  ∧ (∀ (r : Recipient) (e : EmailResult),
        (stepEmail r e).events.countP isAttemptEv = 1) :=
  ⟨dispatchTg_append, stepTg_attempts, traceTg_attempt_bounds,
   dispatchEmail_append, stepEmail_attempts⟩

/-- Claim C7: when the upstream query yields no readable output (empty
stdout) both loaders return the empty sequence rather than an error, and
the run proceeds with zero recipients, reporting all counters zero. -/
theorem claim7_empty_query (envT : Nat → Behavior) (envE : Nat → EmailResult) :
    loadUsersTg "" = [] ∧ loadUsersEmail "" = []
      ∧ runTg "" envT = ⟨0, 0, 0, []⟩ ∧ runEmail "" envE = ⟨0, 0, []⟩ := by
  have hT : loadUsersTg "" = [] := by decide
  have hE : loadUsersEmail "" = [] := by decide
  exact ⟨hT, hE, by simp [runTg, hT, dispatchTg], by simp [runEmail, hE, dispatchEmail]⟩

/-- Claim C8: the pacing sleeps of a run are exactly one per recipient save
the last — 0.08 seconds each in the Telegram pipeline and 0.5 seconds each
in the email pipeline — so a run over n recipients sleeps for pacing
exactly max (n-1) 0 times and never after the final recipient. -/
theorem claim8_pacing (rsT : List (Recipient × Behavior))
    (rsE : List (Recipient × EmailResult)) :
    (traceTg rsT).filter isPaceEv
        = List.replicate (rsT.length - 1) (Event.paceSleep (8/100))
      ∧ (traceEmail rsE).filter isPaceEv
        = List.replicate (rsE.length - 1) (Event.paceSleep (1/2)) :=
  ⟨traceTg_pace_filter rsT, traceEmail_pace_filter rsE⟩

/-- Claim C9: the email pipeline classifies two ways only — every delivery
exception yields failed incremented by one with exactly one failure entry
and there is no blocked bucket and no retry — so sent + failed equals the
recipient count and exactly one transport call is made per recipient. -/
theorem claim9_email_two_way (rs : List (Recipient × EmailResult)) :
    (dispatchEmail rs).sent + (dispatchEmail rs).failed = rs.length
      ∧ (traceEmail rs).countP isAttemptEv = rs.length
      ∧ (dispatchEmail rs).failures.length = (dispatchEmail rs).failed
      ∧ (∀ (r : Recipient) (m : String),
          stepEmail r (EmailResult.exn m)
            = ⟨0, 1, [(r.contact, m)], [Event.attempt (payloadOf r)]⟩) :=
  ⟨dispatchEmail_sum rs, traceEmail_attempt_count rs, dispatchEmail_failures_len rs,
   fun _ _ => rfl⟩

/-- Claim C10: the Telegram failures list itemizes exactly the failed
recipients — its length always equals the failed counter, each failed
recipient contributes exactly one (contact, reason) entry, and recipients
classified sent or blocked contribute none. -/
theorem claim10_failures_itemized (rs : List (Recipient × Behavior)) :
    (dispatchTg rs).failures.length = (dispatchTg rs).failed
      ∧ (∀ (r : Recipient) (b : Behavior),
          (stepTg r b).failEntries.length = (stepTg r b).failedInc)
      ∧ (∀ (r : Recipient) (b : Behavior),
          (stepTg r b).failedInc = 0 → (stepTg r b).failEntries = [])
      ∧ (∀ (r : Recipient) (b : Behavior) (e : String × String),
          e ∈ (stepTg r b).failEntries → e.1 = r.contact) := by
  refine ⟨dispatchTg_failures_len rs, stepTg_fail_len, fun r b h => ?_, fun r b e he => ?_⟩
  · have hl := stepTg_fail_len r b
    rw [h] at hl
    exact List.length_eq_zero.mp hl
  · exact stepTg_fail_contact r b e he

theorem claim10_witness :
    (stepTg ⟨"9", "es", ""⟩ ⟨TransportResult.ok, TransportResult.ok⟩).failEntries = [] :=
  (claim10_failures_itemized []).2.2.1 ⟨"9", "es", ""⟩ ⟨TransportResult.ok, TransportResult.ok⟩ (by decide)
